import Mathlib

/-!
# Verification of the netorcai protocol coordinator

Shallow embedding of the netorcai game coordinator (Go) and proofs about it.

Sources embedded here:
* the message codec (`readLoginMessage`, `readTurnACKMessage`, message record
  types) from the codec source file;
* the client admission switch (`handleClient`), the player/visualization
  session loop (`handlePlayerOrVisu`), the game-logic coordinator
  (`handleGameLogic`) and `kick` from `control.go`;
* the interactive-shell command interpreter (`executor`) from the prompt
  source file.

Go-specific semantics are embedded explicitly where they matter:
* `for i, x := range s` binds `x` to a *copy* of `s[i]`; writes to `x` do not
  affect the slice;
* `make([]T, 1)` builds a slice of *length* 1 holding one zero value of `T`;
* `s[0:]` is the whole slice (it does not empty it);
* calling `Error()` on a nil `error` value dereferences nil and panics.

JSON payloads (`map[string]interface{}` in Go) are modelled by `JsonValue` /
`JsonObj`. Go `float64` configuration values are modelled by `Rat`: the code
only compares and stores them, so no floating-point rounding is involved in
the modelled paths (range boundaries are treated exactly).
-/

set_option autoImplicit false

namespace Netorcai

/-- A JSON value as decoded from a frame. Go stores decoded JSON in
`map[string]interface{}`; integer slots must hold integral numbers
(non-integral numbers in integer slots are a codec error), which we keep
apart via `jNonIntegralNumber`. -/
inductive JsonValue where
  | jNull : JsonValue
  | jBool : Bool → JsonValue
  | jInt : Int → JsonValue
  | jNonIntegralNumber : JsonValue
  | jStr : String → JsonValue
  | jArr : List JsonValue → JsonValue
  | jObj : List (String × JsonValue) → JsonValue

/-- A decoded JSON object: association list from field names to values
(JSON objects cannot carry duplicate keys, and lookup takes the first
binding anyway). -/
abbrev JsonObj := List (String × JsonValue)

/-- Modelled from the spec: the codec's string field reader (its source file
is not part of the provided sources; error texts follow §4.2 and the messages
the test suite matches). Returns the string stored under `field`. -/
def readString (data : JsonObj) (field : String) : Except String String :=
  match data.lookup field with
  | none => .error ("Field '" ++ field ++ "' is missing")
  | some (JsonValue.jStr s) => .ok s
  | some _ => .error ("Non-string value for field '" ++ field ++ "'")

/-- Modelled from the spec: the codec's integer field reader (source file not
provided). Non-integral JSON numbers in integer slots are an error (§4.2);
the test suite matches `Non-integral value for field 'turn_number'`. -/
def readInt (data : JsonObj) (field : String) : Except String Int :=
  match data.lookup field with
  | none => .error ("Field '" ++ field ++ "' is missing")
  | some (JsonValue.jInt n) => .ok n
  | some _ => .error ("Non-integral value for field '" ++ field ++ "'")

/-- Modelled from the spec: the codec's object field reader (source file not
provided); the test suite matches `Non-object value for field
'initial_game_state'`. -/
def readObject (data : JsonObj) (field : String) : Except String JsonObj :=
  match data.lookup field with
  | none => .error ("Field '" ++ field ++ "' is missing")
  | some (JsonValue.jObj o) => .ok o
  | some _ => .error ("Non-object value for field '" ++ field ++ "'")

/-- The `MessageLogin` record of the codec source. -/
structure MessageLogin where
  nickname : String
  role : String


/-- The `MessageTurn` record of the codec source (`message_type`,
`turn_number`, `game_state`). -/
structure MessageTurn where
  messageType : String
  turnNumber : Int
  gameState : JsonObj


/-- The `MessageTurnAck` record of the codec source. In this source the
`actions` field is read with `readObject`, so it holds a JSON object. -/
structure MessageTurnAck where
  turnNumber : Int
  actions : JsonObj


/-- The `MessageGameStarts` record of the codec source: `player_id`,
`nb_players`, `nb_turns_max`, `milliseconds_before_first_turn`, `data`. -/
structure MessageGameStarts where
  playerID : Int
  nbPlayers : Int
  nbTurnsMax : Int
  delayFirstTurn : Rat
  data : JsonObj


/-- The `MessageDoTurnPlayerAction` record referenced by `control.go`
(`playerID`, `turnNumber`, `actions`). -/
structure MessageDoTurnPlayerAction where
  playerID : Int
  turnNumber : Int
  actions : JsonObj


/-- The `MessageDoInitAck` record: holds the `initial_game_state` object.
Modelled from the spec (the reader's source file is not provided): §4.2
requires `initial_game_state` to be an object containing `all_clients`. -/
structure MessageDoInitAck where
  initialGameState : JsonObj


/-- `checkMessageType` from the codec source: `message_type` must be a
string equal to the expected type. -/
def checkMessageType (data : JsonObj) (expectedMessageType : String) :
    Except String Unit :=
  match readString data "message_type" with
  | .error e => .error e
  | .ok messageType =>
    if messageType ≠ expectedMessageType then
      .error ("Received '" ++ messageType ++ "' message type, while " ++
        expectedMessageType ++ " was expected")
    else
      .ok ()

/-- Go's regexp class `\s`: `[\t\n\f\r ]`. -/
def goIsSpace (c : Char) : Bool :=
  c = ' ' ∨ c = '\t' ∨ c = '\n' ∨ c = '\x0c' ∨ c = '\r'

/-- The nickname check of `readLoginMessage`: the regexp `\A\S{1,10}\z`,
i.e. one to ten non-whitespace characters and nothing else. -/
def nicknameMatches (s : String) : Bool :=
  1 ≤ s.length ∧ s.length ≤ 10 ∧ s.data.all (fun c => ¬ goIsSpace c)

/-- `readLoginMessage` from the codec source: checks `message_type = LOGIN`,
reads and validates `nickname`, reads `role` and accepts exactly the roles
`player`, `visualization` and `game logic`. -/
def readLoginMessage (data : JsonObj) : Except String MessageLogin :=
  match checkMessageType data "LOGIN" with
  | .error e => .error e
  | .ok _ =>
    match readString data "nickname" with
    | .error e => .error e
    | .ok nickname =>
      if ¬ nicknameMatches nickname then
        .error "Invalid nickname"
      else
        match readString data "role" with
        | .error e => .error e
        | .ok role =>
          if role = "player" ∨ role = "visualization" ∨ role = "game logic"
          then
            .ok { nickname := nickname, role := role }
          else
            .error ("Invalid role '" ++ role ++ "'")

/-- `readTurnACKMessage` from the codec source: checks `message_type =
TURN_ACK`, reads `turn_number`, rejects it when it differs from
`expectedTurnNumber` (naming both values), then reads `actions`. -/
def readTurnACKMessage (data : JsonObj) (expectedTurnNumber : Int) :
    Except String MessageTurnAck :=
  match checkMessageType data "TURN_ACK" with
  | .error e => .error e
  | .ok _ =>
    match readInt data "turn_number" with
    | .error e => .error e
    | .ok turnNumber =>
      if turnNumber ≠ expectedTurnNumber then
        .error ("Invalid value (turn_number=" ++ toString turnNumber ++
          "): expecting " ++ toString expectedTurnNumber)
      else
        match readObject data "actions" with
        | .error e => .error e
        | .ok actions =>
          .ok { turnNumber := turnNumber, actions := actions }

/-- Modelled from the spec: `readDoInitAckMessage` (its source file is not
provided). §4.2: `DO_INIT_ACK` requires `initial_game_state` to be an object
containing `all_clients`; the test suite matches the error texts
`Field 'initial_game_state' is missing`, `Non-object value for field
'initial_game_state'` and `Field 'all_clients' is missing`. -/
def readDoInitAckMessage (data : JsonObj) : Except String MessageDoInitAck :=
  match checkMessageType data "DO_INIT_ACK" with
  | .error e => .error e
  | .ok _ =>
    match readObject data "initial_game_state" with
    | .error e => .error e
    | .ok gs =>
      match gs.lookup "all_clients" with
      | none => .error "Field 'all_clients' is missing"
      | some _ => .ok { initialGameState := gs }

/-! ## Game and client state constants (`control.go`) -/

def GAME_NOT_RUNNING : Nat := 0
def GAME_RUNNING : Nat := 1
def GAME_FINISHED : Nat := 2

def CLIENT_UNLOGGED : Nat := 0
def CLIENT_LOGGED : Nat := 1
def CLIENT_READY : Nat := 2
def CLIENT_THINKING : Nat := 3
def CLIENT_FINISHED : Nat := 4
def CLIENT_KICKED : Nat := 5

/-- The `PlayerOrVisuClient` record of `control.go`. The `client *Client`
pointer is modelled by an identifier; the channels (`gameStarts`, `newTurn`,
`gameEnds`) are events of the session step function below. -/
structure PlayerOrVisuClient where
  clientId : Nat
  playerID : Int
  isPlayer : Bool

/-- A `(content, err)` pair read from a client socket
(`client.incomingMessages`). -/
structure IncomingMessage where
  err : Option String
  content : JsonObj

/-! ## The player/visualization session loop (`handlePlayerOrVisu`) -/

/-- The messages a player/visu session can emit: wire messages written on its
socket, and the player-action forward to the game logic's `playerAction`
channel. -/
inductive PVOutput where
  | wireTurn : MessageTurn → PVOutput
  | wireGameStarts : MessageGameStarts → PVOutput
  | wireKick : String → PVOutput
  | forwardAction : MessageDoTurnPlayerAction → PVOutput

/-- The local state of `handlePlayerOrVisu`: the client state, the turn
buffer slice and `lastTurnNumberSent`. -/
structure PVState where
  clientState : Nat
  turnBuffer : List MessageTurn
  lastTurnNumberSent : Int

/-- The Go zero value of `MessageTurn`: empty message type, turn number 0,
nil game state. -/
def zeroMessageTurn : MessageTurn :=
  { messageType := "", turnNumber := 0, gameState := [] }

/-- The state of `handlePlayerOrVisu` when its loop is entered
(control.go:201-202): `turnBuffer := make([]MessageTurn, 1)` is a slice of
*length one* holding a zero `MessageTurn`, and `lastTurnNumberSent := -1`.
The client state at that point is whatever the login phase left. -/
def pvInitialState (clientState : Nat) : PVState :=
  { clientState := clientState
    turnBuffer := [zeroMessageTurn]
    lastTurnNumberSent := -1 }

/-- An event the `select` of `handlePlayerOrVisu` can wake up on: a turn
pushed by the coordinator on `pvClient.newTurn`, or a frame from the client
socket. -/
inductive PVEvent where
  | newTurn : MessageTurn → PVEvent
  | clientMsg : IncomingMessage → PVEvent

/-- One iteration of the `handlePlayerOrVisu` loop (control.go:204-290).
Returns the new state, the outputs emitted during the iteration, and whether
the function returned (after a kick). `gameLogicConnected` stands for the
`len(globalState.gameLogic) == 1` check guarding the action forward; socket
writes are modelled as succeeding (their failure paths only kick). -/
def pvStep (isPlayer gameLogicConnected : Bool) (playerID : Int)
    (s : PVState) (ev : PVEvent) : PVState × List PVOutput × Bool :=
  match ev with
  | .newTurn turn =>
    if s.clientState = CLIENT_READY then
      -- Send the turn right away and think about it.
      ({ s with lastTurnNumberSent := turn.turnNumber
                clientState := CLIENT_THINKING },
       [.wireTurn turn], false)
    else if s.clientState = CLIENT_THINKING then
      if s.turnBuffer.length > 0 then
        -- Update the turn buffer with the new message.
        ({ s with turnBuffer := s.turnBuffer.set 0 turn }, [], false)
      else
        -- Put the new message into the turn buffer.
        ({ s with turnBuffer := s.turnBuffer ++ [turn] }, [], false)
    else
      (s, [], false)
  | .clientMsg msg =>
    match msg.err with
    | some e => (s, [.wireKick ("Cannot read TURN_ACK. " ++ e)], true)
    | none =>
      match readTurnACKMessage msg.content s.lastTurnNumberSent with
      | .error e =>
        (s, [.wireKick ("Invalid TURN_ACK received. " ++ e)], true)
      | .ok turnAckMsg =>
        if s.clientState ≠ CLIENT_THINKING then
          (s,
           [.wireKick "Received a TURN_ACK but the client state is not THINKING"],
           true)
        else
          -- control.go:254-259: this second turn-number check kicks but does
          -- not return; it is unreachable anyway because the codec already
          -- rejected mismatching turn numbers.
          let mismatchOut : List PVOutput :=
            if turnAckMsg.turnNumber ≠ s.lastTurnNumberSent then
              [.wireKick ("Invalid TURN_ACK received: Expected turn_number=" ++
                toString s.lastTurnNumberSent ++ ", got " ++
                toString turnAckMsg.turnNumber)]
            else []
          let fwdOut : List PVOutput :=
            if isPlayer ∧ gameLogicConnected then
              [.forwardAction
                { playerID := playerID
                  turnNumber := turnAckMsg.turnNumber
                  actions := turnAckMsg.actions }]
            else []
          if s.turnBuffer.length > 0 then
            -- Send `turnBuffer[0]`, then `turnBuffer = turnBuffer[0:]`:
            -- in Go that slice expression is the *whole* slice, so the buffer
            -- is left untouched.
            ({ s with clientState := CLIENT_THINKING },
             mismatchOut ++ fwdOut ++
               [.wireTurn (s.turnBuffer.getD 0 zeroMessageTurn)],
             false)
          else
            ({ s with clientState := CLIENT_READY },
             mismatchOut ++ fwdOut, false)

/-- Run the `handlePlayerOrVisu` loop over a sequence of events, collecting
outputs in order; stops early when an iteration returns. -/
def pvRun (isPlayer gameLogicConnected : Bool) (playerID : Int)
    (s : PVState) : List PVEvent → PVState × List PVOutput × Bool
  | [] => (s, [], false)
  | ev :: evs =>
    let r := pvStep isPlayer gameLogicConnected playerID s ev
    if r.2.2 then
      (r.1, r.2.1, true)
    else
      let rest := pvRun isPlayer gameLogicConnected playerID r.1 evs
      (rest.1, r.2.1 ++ rest.2.1, rest.2.2)

/-! ## The game coordinator (`handleGameLogic`), embedded piecewise -/

/-- The action fan-in of `handleGameLogic` (control.go:373-391): on arrival
of a player action, scan `playerActions` for an entry with the same
`PlayerID`; at the first hit, swap it with the last element, overwrite the
last element with the new action and leave the loop. The `actionFound` flag
is declared at control.go:379 but never set inside the loop, so the append at
control.go:388-391 runs whether or not a hit occurred. -/
def insertPlayerAction (playerActions : List MessageDoTurnPlayerAction)
    (action : MessageDoTurnPlayerAction) : List MessageDoTurnPlayerAction :=
  match playerActions.findIdx?
      (fun act => act.playerID == action.playerID) with
  | some actionIndex =>
    let n := playerActions.length
    let atIdx := playerActions.getD actionIndex action
    let lastVal := playerActions.getD (n - 1) action
    let swapped := (playerActions.set (n - 1) atIdx).set actionIndex lastVal
    let replaced := swapped.set (n - 1) action
    -- `actionFound` is still false here, so the action is appended as well.
    replaced ++ [action]
  | none => playerActions ++ [action]

/-- The player-identifier assignment of `handleGameLogic`
(control.go:313-317): `for playerIndex, player := range globalState.players`
binds `player` to a copy of the slice element, and the body writes only
`player.playerID`, i.e. the copy's field; nothing is written back into
`globalState.players`, so the loop leaves the slice as it was. -/
def assignPlayerIDs (players : List PlayerOrVisuClient)
    (playerIDs : List Int) : List PlayerOrVisuClient :=
  (List.range players.length).foldl
    (fun ps playerIndex =>
      let player := ps.getD playerIndex { clientId := 0, playerID := 0,
                                          isPlayer := false }
      let _playerAfterWrite :=
        { player with playerID := playerIDs.getD playerIndex 0 }
      ps)
    players

/-- The `GAME_STARTS` payload fan-out of `handleGameLogic`
(control.go:349-359): one message per registered player, carrying that
element's `playerID` field. -/
def gameStartsMessages (players : List PlayerOrVisuClient)
    (nbTurnsMax : Int) (delayFirstTurn : Rat) (initialGameState : JsonObj) :
    List MessageGameStarts :=
  players.map (fun player =>
    { playerID := player.playerID
      nbPlayers := (players.length : Int)
      nbTurnsMax := nbTurnsMax
      delayFirstTurn := delayFirstTurn
      data := initialGameState })

/-- Go semantics of `e.Error()` for `e : error`: returns the message when
`e` is non-nil, and dereferences nil (a runtime panic) when `e` is nil. -/
def errError : Option String → Except Unit String
  | some s => .ok s
  | none => .error ()

/-- Outcome of the `DO_INIT_ACK` wait of `handleGameLogic`. -/
inductive DoInitAckOutcome where
  | panicked : DoInitAckOutcome
  | kickedAndExit : String → DoInitAckOutcome
  | proceeded : MessageDoInitAck → DoInitAckOutcome

/-- The `DO_INIT_ACK` wait of `handleGameLogic` (control.go:331-346). A read
error kicks and signals exit. A codec error takes the branch at
control.go:341-346, whose kick reason is formatted from `msg.err.Error()` —
but on that branch `msg.err` is nil (a non-nil `msg.err` returned at
control.go:333-338), so the call is `errError none`. -/
def handleDoInitAck (msg : IncomingMessage) : DoInitAckOutcome :=
  match msg.err with
  | some e => .kickedAndExit ("Cannot read DO_INIT_ACK. " ++ e)
  | none =>
    match readDoInitAckMessage msg.content with
    | .ok ack => .proceeded ack
    | .error _err =>
      match errError none with
      | .error _ => .panicked
      | .ok e => .kickedAndExit ("Invalid DO_INIT_ACK message. " ++ e)

/-! ## Client admission (`handleClient`) -/

/-- The part of `GlobalState` that `handleClient` reads and writes: the
phase, the three client buckets and the capacities. -/
structure GlobalState where
  gameState : Nat
  players : List PlayerOrVisuClient
  visus : List PlayerOrVisuClient
  gameLogic : List Nat
  nbPlayersMax : Int
  nbVisusMax : Int

/-- Outcome of the login switch of `handleClient`. -/
inductive LoginOutcome where
  | accepted : LoginOutcome
  | denied : String → LoginOutcome

/-- The role switch of `handleClient` (control.go:96-197), entered after
`readLoginMessage` succeeded. `sendLoginAckOk` models whether
`sendLoginACK(client)` succeeds. Returns the updated global state and the
admission outcome (`denied reason` means the client is kicked with that
reason; `kick` itself only touches the client, never the global state). -/
def handleClientLogin (gs : GlobalState) (login : MessageLogin)
    (clientId : Nat) (sendLoginAckOk : Bool) : GlobalState × LoginOutcome :=
  if login.role = "player" then
    if gs.gameState ≠ GAME_NOT_RUNNING then
      (gs, .denied "LOGIN denied: Game has been started")
    else if (gs.players.length : Int) ≥ gs.nbPlayersMax then
      (gs, .denied "LOGIN denied: Maximum number of players reached")
    else if ¬ sendLoginAckOk then
      (gs, .denied "LOGIN denied: Could not send LOGIN_ACK")
    else
      ({ gs with players := gs.players ++
          [{ clientId := clientId, playerID := -1, isPlayer := true }] },
       .accepted)
  else if login.role = "visualization" then
    if (gs.visus.length : Int) ≥ gs.nbVisusMax then
      (gs, .denied "LOGIN denied: Maximum number of visus reached")
    else if ¬ sendLoginAckOk then
      (gs, .denied "LOGIN denied: Could not send LOGIN_ACK")
    else
      ({ gs with visus := gs.visus ++
          [{ clientId := clientId, playerID := -1, isPlayer := false }] },
       .accepted)
  else if login.role = "game logic" then
    if gs.gameState ≠ GAME_NOT_RUNNING then
      (gs, .denied "LOGIN denied: Game has been started")
    else if gs.gameLogic.length ≥ 1 then
      (gs, .denied "LOGIN denied: A game logic is already logged in")
    else if ¬ sendLoginAckOk then
      (gs, .denied "LOGIN denied: Could not send LOGIN_ACK")
    else
      ({ gs with gameLogic := gs.gameLogic ++ [clientId] }, .accepted)
  else
    (gs, .denied ("LOGIN denied: Unknown role '" ++ login.role ++ "'"))

/-! ## The shell command interpreter (`executor`) -/

/-- `stringInSlice` from the prompt source. -/
def stringInSlice (searchedValue : String) (slice : List String) : Bool :=
  slice.any (fun value => value == searchedValue)

/-- `acceptedSetVariables` from the prompt source. -/
def acceptedSetVariables : List String :=
  ["nb-turns-max", "nb-players-max", "nb-splayers-max", "nb-visus-max",
   "delay-first-turn", "delay-turns"]

/-- The part of the shell's global state the `set`/`print` branches touch:
the six configuration variables and the game phase (which the `set` branch
never reads). -/
structure ShellGlobalState where
  gameState : Nat
  nbTurnsMax : Int
  nbPlayersMax : Int
  nbSpecialPlayersMax : Int
  nbVisusMax : Int
  millisecondsBeforeFirstTurn : Rat
  millisecondsBetweenTurns : Rat

/-- `strconv.ParseInt(value, 0, 64)` on the decimal rendering of an integer
`x`: succeeds with `x` when it fits in a signed 64-bit integer, errors
otherwise. -/
def goParseInt64 (x : Int) : Except String Int :=
  if -9223372036854775808 ≤ x ∧ x < 9223372036854775808 then .ok x
  else .error "value out of range"

/-- The `set` branch of `executor` (the switch over the matched variable name
and value). The two parses the Go code performs on the value string
(`strconv.ParseInt` with `errInt` and `strconv.ParseFloat` with `errFloat`)
are passed in as their results. Returns the updated state and the printed
complaints (empty iff the assignment happened). -/
def executorSet (gs : ShellGlobalState) (varName : String)
    (intParse : Except String Int) (floatParse : Except String Rat) :
    ShellGlobalState × List String :=
  if ¬ stringInSlice varName acceptedSetVariables then
    (gs, ["Bad VARIABLE=" ++ varName])
  else if varName = "nb-turns-max" then
    match intParse with
    | .error e => (gs, ["Bad VALUE. " ++ e])
    | .ok intValue =>
      if intValue ≥ 1 ∧ intValue ≤ 65535 then
        ({ gs with nbTurnsMax := intValue }, [])
      else
        (gs, ["Bad VALUE=" ++ toString intValue ++ ": Not in [1,65535]"])
  else if varName = "nb-players-max" then
    match intParse with
    | .error e => (gs, ["Bad VALUE. " ++ e])
    | .ok intValue =>
      if intValue ≥ 1 ∧ intValue ≤ 1024 then
        ({ gs with nbPlayersMax := intValue }, [])
      else
        (gs, ["Bad VALUE=" ++ toString intValue ++ ": Not in [1,1024]"])
  else if varName = "nb-splayers-max" then
    match intParse with
    | .error e => (gs, ["Bad VALUE. " ++ e])
    | .ok intValue =>
      if intValue ≥ 0 ∧ intValue ≤ 1024 then
        ({ gs with nbSpecialPlayersMax := intValue }, [])
      else
        (gs, ["Bad VALUE=" ++ toString intValue ++ ": Not in [0,1024]"])
  else if varName = "nb-visus-max" then
    match intParse with
    | .error e => (gs, ["Bad VALUE. " ++ e])
    | .ok intValue =>
      if intValue ≥ 0 ∧ intValue ≤ 1024 then
        ({ gs with nbVisusMax := intValue }, [])
      else
        (gs, ["Bad VALUE=" ++ toString intValue ++ ": Not in [0,1024]"])
  else if varName = "delay-first-turn" then
    match floatParse with
    | .error e => (gs, ["Bad VALUE. " ++ e])
    | .ok floatValue =>
      if floatValue ≥ 50 ∧ floatValue ≤ 10000 then
        ({ gs with millisecondsBeforeFirstTurn := floatValue }, [])
      else
        (gs, ["Bad VALUE: Not in [50,10000]"])
  else if varName = "delay-turns" then
    match floatParse with
    | .error e => (gs, ["Bad VALUE. " ++ e])
    | .ok floatValue =>
      if floatValue ≥ 50 ∧ floatValue ≤ 10000 then
        ({ gs with millisecondsBetweenTurns := floatValue }, [])
      else
        (gs, ["Bad VALUE: Not in [50,10000]"])
  else
    (gs, [])

/-- The `print` branch of `executor` for a single recognized variable: the
numeric value it renders (`%v=%v`). Integer variables are rendered as their
integer values, the two delays as their float values. -/
def printValue (gs : ShellGlobalState) (varName : String) : Option Rat :=
  if varName = "nb-turns-max" then some (gs.nbTurnsMax : Rat)
  else if varName = "nb-players-max" then some (gs.nbPlayersMax : Rat)
  else if varName = "nb-splayers-max" then some (gs.nbSpecialPlayersMax : Rat)
  else if varName = "nb-visus-max" then some (gs.nbVisusMax : Rat)
  else if varName = "delay-first-turn" then
    some gs.millisecondsBeforeFirstTurn
  else if varName = "delay-turns" then some gs.millisecondsBetweenTurns
  else none

/-! ## Theorems -/

/-- C1: the action fan-in does *not* keep at most one entry per player.
`actionFound` is never set inside the scan loop (control.go:379-386), so an
arriving action whose `playerID` already appears in the batch both overwrites
the prior entry and is appended again: starting from a batch holding one
action of player 0, the insertion of player 0's next action yields a batch
with **two** entries for `playerID = 0` (both carrying the new actions). -/
theorem insertPlayerAction_duplicates_entry :
    insertPlayerAction
        [{ playerID := 0, turnNumber := 0, actions := [] }]
        { playerID := 0, turnNumber := 1, actions := [] } =
      [{ playerID := 0, turnNumber := 1, actions := [] },
       { playerID := 0, turnNumber := 1, actions := [] }] ∧
    (insertPlayerAction
        [{ playerID := 0, turnNumber := 0, actions := [] }]
        { playerID := 0, turnNumber := 1, actions := [] }).countP
      (fun a => a.playerID == 0) = 2 :=
  ⟨rfl, rfl⟩

/-- C3: the player-identifier assignment loop has no effect. Go's
`for _, player := range` binds a copy, so `player.playerID = playerIDs[i]`
is lost: with two registered players (ids still `-1`) and the permutation
`[1, 0]`, the players keep `playerID = -1`, every `GAME_STARTS` payload
carries `player_id = -1`, and the resulting id list is not a permutation of
`[0, 2)`. -/
theorem assignPlayerIDs_leaves_ids_unassigned :
    assignPlayerIDs
        [{ clientId := 1, playerID := -1, isPlayer := true },
         { clientId := 2, playerID := -1, isPlayer := true }] [1, 0] =
      [{ clientId := 1, playerID := -1, isPlayer := true },
       { clientId := 2, playerID := -1, isPlayer := true }] ∧
    (gameStartsMessages
        (assignPlayerIDs
          [{ clientId := 1, playerID := -1, isPlayer := true },
           { clientId := 2, playerID := -1, isPlayer := true }] [1, 0])
        10 50 []).map MessageGameStarts.playerID = [-1, -1] ∧
    ¬ ((assignPlayerIDs
        [{ clientId := 1, playerID := -1, isPlayer := true },
         { clientId := 2, playerID := -1, isPlayer := true }] [1, 0]).map
        (fun p => p.playerID)).Perm [0, 1] :=
  ⟨rfl, rfl, by decide⟩

/-- C4: after an accepted `TURN_ACK` with no turn having been buffered since
the last send, the session does *not* transition to `READY`: the buffer
starts as `make([]MessageTurn, 1)` (length one, holding the zero turn) and
`turnBuffer = turnBuffer[0:]` never empties it, so the ack path always finds
a "buffered" turn, re-sends a stale turn (the zero turn, `turn_number = 0`,
after having sent turn 5) and stays `THINKING`. -/
theorem turnAck_without_buffered_turn_resends_stale :
    pvRun false false 0 (pvInitialState CLIENT_READY)
        [.newTurn { messageType := "TURN", turnNumber := 5, gameState := [] },
         .clientMsg { err := none, content :=
           [("message_type", .jStr "TURN_ACK"), ("turn_number", .jInt 5),
            ("actions", .jObj [])] }] =
      ({ clientState := CLIENT_THINKING, turnBuffer := [zeroMessageTurn],
         lastTurnNumberSent := 5 },
       [.wireTurn { messageType := "TURN", turnNumber := 5, gameState := [] },
        .wireTurn zeroMessageTurn], false) ∧
    zeroMessageTurn.turnNumber = 0 ∧ CLIENT_THINKING ≠ CLIENT_READY :=
  ⟨rfl, rfl, by decide⟩

/-- C6: when `DO_INIT_ACK` fails codec validation, `handleGameLogic` does
not kick with the codec error: control.go:343 formats the kick reason from
`msg.err.Error()`, and `msg.err` is nil on that path, so the process panics
on a nil dereference instead. At the failing input (a `DO_INIT_ACK` frame
missing `message_type`), the codec error that should have been reported is
`Field 'message_type' is missing`, but the branch panics. -/
theorem doInitAck_invalid_panics :
    handleDoInitAck { err := none, content :=
        [("initial_game_state", .jObj [("all_clients", .jObj [])])] } =
      .panicked ∧
    readDoInitAckMessage
        [("initial_game_state", .jObj [("all_clients", .jObj [])])] =
      .error "Field 'message_type' is missing" :=
  ⟨rfl, rfl⟩

/-- C7 counterexample: a `set` command issued while `phase = RUNNING` does
change the configuration: the `set` branch of `executor` performs no phase
check, so `set nb-turns-max 7` on a running game replaces the previous value
100 by 7. -/
theorem set_while_running_mutates_config :
    (executorSet
        { gameState := GAME_RUNNING, nbTurnsMax := 100, nbPlayersMax := 4,
          nbSpecialPlayersMax := 0, nbVisusMax := 1,
          millisecondsBeforeFirstTurn := 50,
          millisecondsBetweenTurns := 50 }
        "nb-turns-max" (.ok 7) (.ok 7)).1.nbTurnsMax = 7 ∧
    (7 : Int) ≠ 100 ∧ GAME_RUNNING ≠ GAME_NOT_RUNNING :=
  ⟨rfl, by decide, by decide⟩

set_option maxHeartbeats 1000000 in
/-- C7 (amended): the `set` branch of `executor` is phase-independent — it
never reads `gameState`, so its configuration effect and its printed
complaints are the same in every phase, and the phase itself is preserved. -/
theorem executorSet_phase_independent (gs : ShellGlobalState) (phase : Nat)
    (varName : String) (intParse : Except String Int)
    (floatParse : Except String Rat) :
    (executorSet { gs with gameState := phase } varName intParse
        floatParse).1 =
      { (executorSet gs varName intParse floatParse).1 with
        gameState := phase } ∧
    (executorSet { gs with gameState := phase } varName intParse
        floatParse).2 =
      (executorSet gs varName intParse floatParse).2 := by
  unfold executorSet
  cases intParse <;> cases floatParse <;> dsimp only <;> split_ifs <;>
    exact ⟨rfl, rfl⟩

/-- Recognizer for a `GAME_STARTS` wire message among session outputs. -/
def isGameStartsOut : PVOutput → Bool
  | .wireGameStarts _ => true
  | _ => false

/-- No single iteration of the `handlePlayerOrVisu` loop emits a
`GAME_STARTS` message: the loop multiplexes only `newTurn` and the client
socket, and its send paths emit only `TURN`, `KICK` and the action forward
(the session's `gameStarts` channel has no `select` case). -/
theorem pvStep_no_gameStarts (isPlayer gameLogicConnected : Bool)
    (playerID : Int) (s : PVState) (ev : PVEvent) :
    ∀ o ∈ (pvStep isPlayer gameLogicConnected playerID s ev).2.1,
      isGameStartsOut o = false := by
  intro o ho
  cases ev with
  | newTurn turn =>
    unfold pvStep at ho
    split_ifs at ho <;> simp_all [isGameStartsOut]
  | clientMsg msg =>
    obtain ⟨err, content⟩ := msg
    unfold pvStep at ho
    cases err with
    | some e => simp_all [isGameStartsOut]
    | none =>
      dsimp only at ho
      cases hr : readTurnACKMessage content s.lastTurnNumberSent with
      | error e => rw [hr] at ho; simp_all [isGameStartsOut]
      | ok ack =>
        rw [hr] at ho
        dsimp only at ho
        split_ifs at ho <;> cases o <;> simp_all [isGameStartsOut]

/-- C2: over any sequence of events, a player/visualization session delivers
`GAME_STARTS` **zero** times — never "exactly once": `handlePlayerOrVisu`
has no case reading the session's `gameStarts` channel, so no `GAME_STARTS`
frame is ever written to the client, while `TURN` frames are. -/
theorem handlePlayerOrVisu_never_sends_gameStarts
    (isPlayer gameLogicConnected : Bool) (playerID : Int) (s : PVState)
    (events : List PVEvent) :
    ((pvRun isPlayer gameLogicConnected playerID s events).2.1).countP
      isGameStartsOut = 0 := by
  induction events generalizing s with
  | nil => simp [pvRun]
  | cons ev evs ih =>
    unfold pvRun
    dsimp only
    split_ifs with h
    · exact List.countP_eq_zero.mpr (fun o ho => by
        simp [pvStep_no_gameStarts isPlayer gameLogicConnected playerID s ev
          o ho])
    · have h1 : ((pvStep isPlayer gameLogicConnected playerID s ev).2.1).countP
          isGameStartsOut = 0 :=
        List.countP_eq_zero.mpr (fun o ho => by
          simp [pvStep_no_gameStarts isPlayer gameLogicConnected playerID s ev
            o ho])
      simp [List.countP_append, h1, ih]

/-- C5: a `TURN_ACK` whose `turn_number` `n` differs from
`lastTurnNumberSent` is rejected by the codec (control flow never reaches the
action forward), and the session is kicked — the loop returns — with a
reason naming both the received value `n` and the expected value
`lastTurnNumberSent`; the session state is untouched. -/
theorem turnAck_mismatch_kicks_naming_both
    (isPlayer gameLogicConnected : Bool) (playerID : Int) (s : PVState)
    (content : JsonObj) (n : Int)
    (hmt : content.lookup "message_type" = some (.jStr "TURN_ACK"))
    (htn : content.lookup "turn_number" = some (.jInt n))
    (hne : n ≠ s.lastTurnNumberSent) :
    pvStep isPlayer gameLogicConnected playerID s
        (.clientMsg { err := none, content := content }) =
      (s,
       [.wireKick ("Invalid TURN_ACK received. " ++
          ("Invalid value (turn_number=" ++ toString n ++ "): expecting " ++
            toString s.lastTurnNumberSent))],
       true) := by
  have hr : readTurnACKMessage content s.lastTurnNumberSent =
      .error ("Invalid value (turn_number=" ++ toString n ++
        "): expecting " ++ toString s.lastTurnNumberSent) := by
    simp [readTurnACKMessage, checkMessageType, readString, readInt,
      hmt, htn, hne]
  simp [pvStep, hr]

/-- C5 witness: a concrete session whose last sent turn number is `-1`
receiving a `TURN_ACK` for turn `3` is kicked with a reason naming `3` and
`-1`. -/
theorem turnAck_mismatch_kicks_naming_both_witness :
    pvStep false false 0 (pvInitialState CLIENT_THINKING)
        (.clientMsg { err := none, content :=
          [("message_type", .jStr "TURN_ACK"), ("turn_number", .jInt 3),
           ("actions", .jObj [])] }) =
      (pvInitialState CLIENT_THINKING,
       [.wireKick ("Invalid TURN_ACK received. " ++
          ("Invalid value (turn_number=" ++ toString (3 : Int) ++
            "): expecting " ++
            toString (pvInitialState CLIENT_THINKING).lastTurnNumberSent))],
       true) :=
  turnAck_mismatch_kicks_naming_both false false 0
    (pvInitialState CLIENT_THINKING)
    [("message_type", .jStr "TURN_ACK"), ("turn_number", .jInt 3),
     ("actions", .jObj [])] 3 rfl rfl (by decide)

/-- C8 counterexample: a `LOGIN` with a valid nickname and role
`special player` does not pass the codec's role check: `readLoginMessage`
rejects it with `Invalid role 'special player'`. -/
theorem login_special_player_rejected :
    readLoginMessage
        [("message_type", .jStr "LOGIN"), ("nickname", .jStr "sp"),
         ("role", .jStr "special player")] =
      .error "Invalid role 'special player'" :=
  rfl

/-- C8 (amended): for a `LOGIN` frame with a valid nickname, the codec's
role check accepts exactly the **three** roles `player`, `visualization`
and `game logic`; the role `special player` in particular is rejected as an
invalid role rather than admitted. -/
theorem readLoginMessage_role_validation
    (data : JsonObj) (nickname role : String)
    (hmt : data.lookup "message_type" = some (.jStr "LOGIN"))
    (hnick : data.lookup "nickname" = some (.jStr nickname))
    (hvalid : nicknameMatches nickname = true)
    (hrole : data.lookup "role" = some (.jStr role)) :
    ((∃ m, readLoginMessage data = .ok m) ↔
      role = "player" ∨ role = "visualization" ∨ role = "game logic") ∧
    (role = "special player" →
      readLoginMessage data = .error ("Invalid role '" ++ role ++ "'")) := by
  have hred : readLoginMessage data =
      if role = "player" ∨ role = "visualization" ∨ role = "game logic" then
        .ok { nickname := nickname, role := role }
      else .error ("Invalid role '" ++ role ++ "'") := by
    simp [readLoginMessage, checkMessageType, readString, hmt, hnick,
      hvalid, hrole]
  rw [hred]
  refine ⟨⟨fun hex => ?_, fun h => ?_⟩, fun h => ?_⟩
  · by_cases hc : role = "player" ∨ role = "visualization" ∨
        role = "game logic"
    · exact hc
    · rw [if_neg hc] at hex
      obtain ⟨m, hm⟩ := hex
      cases hm
  · rw [if_pos h]
    exact ⟨_, rfl⟩
  · subst h
    rw [if_neg (by decide)]

/-- C8 witness: a `LOGIN` with nickname `alice` and role `player` satisfies
the role-validation equivalence at a concrete input. -/
theorem readLoginMessage_role_validation_witness :
    ((∃ m, readLoginMessage
        [("message_type", .jStr "LOGIN"), ("nickname", .jStr "alice"),
         ("role", .jStr "player")] = .ok m) ↔
      ("player" : String) = "player" ∨
        ("player" : String) = "visualization" ∨
        ("player" : String) = "game logic") ∧
    (("player" : String) = "special player" →
      readLoginMessage
          [("message_type", .jStr "LOGIN"), ("nickname", .jStr "alice"),
           ("role", .jStr "player")] =
        .error ("Invalid role '" ++ "player" ++ "'")) :=
  readLoginMessage_role_validation
    [("message_type", .jStr "LOGIN"), ("nickname", .jStr "alice"),
     ("role", .jStr "player")] "alice" "player" rfl rfl (by decide) rfl

/-- C10: any denied login leaves the coordinator's global state exactly as
it was — every denial branch of `handleClient` kicks the connecting client
without appending it to the `players`, `visus` or `gameLogic` buckets and
without touching the phase or the capacities. -/
theorem login_denied_leaves_state_unchanged
    (gs : GlobalState) (login : MessageLogin) (clientId : Nat)
    (sendLoginAckOk : Bool) (reason : String)
    (h : (handleClientLogin gs login clientId sendLoginAckOk).2 =
      .denied reason) :
    (handleClientLogin gs login clientId sendLoginAckOk).1 = gs := by
  unfold handleClientLogin at h ⊢
  split_ifs at h ⊢ <;> simp_all

/-- C10 witness: a player login denied because the game is running leaves
the concrete global state unchanged. -/
theorem login_denied_leaves_state_unchanged_witness :
    (handleClientLogin
        { gameState := GAME_RUNNING, players := [], visus := [],
          gameLogic := [], nbPlayersMax := 4, nbVisusMax := 1 }
        { nickname := "bob", role := "player" } 7 true).1 =
      { gameState := GAME_RUNNING, players := [], visus := [],
        gameLogic := [], nbPlayersMax := 4, nbVisusMax := 1 } :=
  login_denied_leaves_state_unchanged
    { gameState := GAME_RUNNING, players := [], visus := [],
      gameLogic := [], nbPlayersMax := 4, nbVisusMax := 1 }
    { nickname := "bob", role := "player" } 7 true
    "LOGIN denied: Game has been started" rfl

/-- The configured values all lie in their validated ranges (the ranges the
`set` branch of `executor` enforces; the defaults and every stored value
satisfy this). -/
def configInRange (gs : ShellGlobalState) : Prop :=
  (1 ≤ gs.nbTurnsMax ∧ gs.nbTurnsMax ≤ 65535) ∧
  (1 ≤ gs.nbPlayersMax ∧ gs.nbPlayersMax ≤ 1024) ∧
  (0 ≤ gs.nbSpecialPlayersMax ∧ gs.nbSpecialPlayersMax ≤ 1024) ∧
  (0 ≤ gs.nbVisusMax ∧ gs.nbVisusMax ≤ 1024) ∧
  (50 ≤ gs.millisecondsBeforeFirstTurn ∧
    gs.millisecondsBeforeFirstTurn ≤ 10000) ∧
  (50 ≤ gs.millisecondsBetweenTurns ∧ gs.millisecondsBetweenTurns ≤ 10000)

theorem setPrint_nbTurnsMax (gs : ShellGlobalState) (hgs : configInRange gs)
    (x : Int) (fp : Except String Rat) :
    ((printValue (executorSet gs "nb-turns-max" (goParseInt64 x) fp).1
        "nb-turns-max" = some (x : Rat)) ↔ (1 ≤ x ∧ x ≤ 65535)) ∧
    (¬ (1 ≤ x ∧ x ≤ 65535) →
      (executorSet gs "nb-turns-max" (goParseInt64 x) fp).1 = gs) := by
  obtain ⟨⟨hlo, hhi⟩, -⟩ := hgs
  by_cases h64 : -9223372036854775808 ≤ x ∧ x < 9223372036854775808
  · have hok : goParseInt64 x = .ok x := by
      unfold goParseInt64; exact if_pos h64
    rw [hok]
    have hred : executorSet gs "nb-turns-max" (Except.ok x) fp =
        if x ≥ 1 ∧ x ≤ 65535 then
          ({ gs with nbTurnsMax := x }, ([] : List String))
        else (gs, ["Bad VALUE=" ++ toString x ++ ": Not in [1,65535]"]) := rfl
    rw [hred]
    by_cases hr : x ≥ 1 ∧ x ≤ 65535
    · rw [if_pos hr]
      exact ⟨by simp [printValue]; omega,
        fun hc => absurd ⟨hr.1, hr.2⟩ hc⟩
    · rw [if_neg hr]
      exact ⟨by simp [printValue]; omega, fun _ => rfl⟩
  · have herr : goParseInt64 x = .error "value out of range" := by
      unfold goParseInt64; exact if_neg h64
    rw [herr]
    have hred : executorSet gs "nb-turns-max"
        (Except.error "value out of range") fp =
        (gs, ["Bad VALUE. " ++ "value out of range"]) := rfl
    rw [hred]
    exact ⟨by simp [printValue]; omega, fun _ => rfl⟩

theorem setPrint_nbPlayersMax (gs : ShellGlobalState)
    (hgs : configInRange gs) (x : Int) (fp : Except String Rat) :
    ((printValue (executorSet gs "nb-players-max" (goParseInt64 x) fp).1
        "nb-players-max" = some (x : Rat)) ↔ (1 ≤ x ∧ x ≤ 1024)) ∧
    (¬ (1 ≤ x ∧ x ≤ 1024) →
      (executorSet gs "nb-players-max" (goParseInt64 x) fp).1 = gs) := by
  obtain ⟨-, ⟨hlo, hhi⟩, -⟩ := hgs
  by_cases h64 : -9223372036854775808 ≤ x ∧ x < 9223372036854775808
  · have hok : goParseInt64 x = .ok x := by
      unfold goParseInt64; exact if_pos h64
    rw [hok]
    have hred : executorSet gs "nb-players-max" (Except.ok x) fp =
        if x ≥ 1 ∧ x ≤ 1024 then
          ({ gs with nbPlayersMax := x }, ([] : List String))
        else (gs, ["Bad VALUE=" ++ toString x ++ ": Not in [1,1024]"]) := rfl
    rw [hred]
    by_cases hr : x ≥ 1 ∧ x ≤ 1024
    · rw [if_pos hr]
      exact ⟨by simp [printValue]; omega,
        fun hc => absurd ⟨hr.1, hr.2⟩ hc⟩
    · rw [if_neg hr]
      exact ⟨by simp [printValue]; omega, fun _ => rfl⟩
  · have herr : goParseInt64 x = .error "value out of range" := by
      unfold goParseInt64; exact if_neg h64
    rw [herr]
    have hred : executorSet gs "nb-players-max"
        (Except.error "value out of range") fp =
        (gs, ["Bad VALUE. " ++ "value out of range"]) := rfl
    rw [hred]
    exact ⟨by simp [printValue]; omega, fun _ => rfl⟩

theorem setPrint_nbSpecialPlayersMax (gs : ShellGlobalState)
    (hgs : configInRange gs) (x : Int) (fp : Except String Rat) :
    ((printValue (executorSet gs "nb-splayers-max" (goParseInt64 x) fp).1
        "nb-splayers-max" = some (x : Rat)) ↔ (0 ≤ x ∧ x ≤ 1024)) ∧
    (¬ (0 ≤ x ∧ x ≤ 1024) →
      (executorSet gs "nb-splayers-max" (goParseInt64 x) fp).1 = gs) := by
  obtain ⟨-, -, ⟨hlo, hhi⟩, -⟩ := hgs
  by_cases h64 : -9223372036854775808 ≤ x ∧ x < 9223372036854775808
  · have hok : goParseInt64 x = .ok x := by
      unfold goParseInt64; exact if_pos h64
    rw [hok]
    have hred : executorSet gs "nb-splayers-max" (Except.ok x) fp =
        if x ≥ 0 ∧ x ≤ 1024 then
          ({ gs with nbSpecialPlayersMax := x }, ([] : List String))
        else (gs, ["Bad VALUE=" ++ toString x ++ ": Not in [0,1024]"]) := rfl
    rw [hred]
    by_cases hr : x ≥ 0 ∧ x ≤ 1024
    · rw [if_pos hr]
      exact ⟨by simp [printValue]; omega,
        fun hc => absurd ⟨hr.1, hr.2⟩ hc⟩
    · rw [if_neg hr]
      exact ⟨by simp [printValue]; omega, fun _ => rfl⟩
  · have herr : goParseInt64 x = .error "value out of range" := by
      unfold goParseInt64; exact if_neg h64
    rw [herr]
    have hred : executorSet gs "nb-splayers-max"
        (Except.error "value out of range") fp =
        (gs, ["Bad VALUE. " ++ "value out of range"]) := rfl
    rw [hred]
    exact ⟨by simp [printValue]; omega, fun _ => rfl⟩

theorem setPrint_nbVisusMax (gs : ShellGlobalState)
    (hgs : configInRange gs) (x : Int) (fp : Except String Rat) :
    ((printValue (executorSet gs "nb-visus-max" (goParseInt64 x) fp).1
        "nb-visus-max" = some (x : Rat)) ↔ (0 ≤ x ∧ x ≤ 1024)) ∧
    (¬ (0 ≤ x ∧ x ≤ 1024) →
      (executorSet gs "nb-visus-max" (goParseInt64 x) fp).1 = gs) := by
  obtain ⟨-, -, -, ⟨hlo, hhi⟩, -⟩ := hgs
  by_cases h64 : -9223372036854775808 ≤ x ∧ x < 9223372036854775808
  · have hok : goParseInt64 x = .ok x := by
      unfold goParseInt64; exact if_pos h64
    rw [hok]
    have hred : executorSet gs "nb-visus-max" (Except.ok x) fp =
        if x ≥ 0 ∧ x ≤ 1024 then
          ({ gs with nbVisusMax := x }, ([] : List String))
        else (gs, ["Bad VALUE=" ++ toString x ++ ": Not in [0,1024]"]) := rfl
    rw [hred]
    by_cases hr : x ≥ 0 ∧ x ≤ 1024
    · rw [if_pos hr]
      exact ⟨by simp [printValue]; omega,
        fun hc => absurd ⟨hr.1, hr.2⟩ hc⟩
    · rw [if_neg hr]
      exact ⟨by simp [printValue]; omega, fun _ => rfl⟩
  · have herr : goParseInt64 x = .error "value out of range" := by
      unfold goParseInt64; exact if_neg h64
    rw [herr]
    have hred : executorSet gs "nb-visus-max"
        (Except.error "value out of range") fp =
        (gs, ["Bad VALUE. " ++ "value out of range"]) := rfl
    rw [hred]
    exact ⟨by simp [printValue]; omega, fun _ => rfl⟩

theorem setPrint_delayFirstTurn (gs : ShellGlobalState)
    (hgs : configInRange gs) (q : Rat) (ip : Except String Int) :
    ((printValue (executorSet gs "delay-first-turn" ip (.ok q)).1
        "delay-first-turn" = some q) ↔ (50 ≤ q ∧ q ≤ 10000)) ∧
    (¬ (50 ≤ q ∧ q ≤ 10000) →
      (executorSet gs "delay-first-turn" ip (.ok q)).1 = gs) := by
  obtain ⟨-, -, -, -, ⟨hlo, hhi⟩, -⟩ := hgs
  have hred : executorSet gs "delay-first-turn" ip (Except.ok q) =
      if q ≥ 50 ∧ q ≤ 10000 then
        ({ gs with millisecondsBeforeFirstTurn := q }, ([] : List String))
      else (gs, ["Bad VALUE: Not in [50,10000]"]) := by
    cases ip <;> rfl
  rw [hred]
  by_cases hr : q ≥ 50 ∧ q ≤ 10000
  · rw [if_pos hr]
    exact ⟨by simp [printValue]; exact ⟨hr.1, hr.2⟩,
      fun hc => absurd ⟨hr.1, hr.2⟩ hc⟩
  · rw [if_neg hr]
    refine ⟨?_, fun _ => rfl⟩
    simp [printValue]
    constructor
    · intro heq
      exact absurd ⟨heq ▸ hlo, heq ▸ hhi⟩ hr
    · intro hq
      exact absurd ⟨hq.1, hq.2⟩ hr

theorem setPrint_delayTurns (gs : ShellGlobalState)
    (hgs : configInRange gs) (q : Rat) (ip : Except String Int) :
    ((printValue (executorSet gs "delay-turns" ip (.ok q)).1
        "delay-turns" = some q) ↔ (50 ≤ q ∧ q ≤ 10000)) ∧
    (¬ (50 ≤ q ∧ q ≤ 10000) →
      (executorSet gs "delay-turns" ip (.ok q)).1 = gs) := by
  obtain ⟨-, -, -, -, -, hlo, hhi⟩ := hgs
  have hred : executorSet gs "delay-turns" ip (Except.ok q) =
      if q ≥ 50 ∧ q ≤ 10000 then
        ({ gs with millisecondsBetweenTurns := q }, ([] : List String))
      else (gs, ["Bad VALUE: Not in [50,10000]"]) := by
    cases ip <;> rfl
  rw [hred]
  by_cases hr : q ≥ 50 ∧ q ≤ 10000
  · rw [if_pos hr]
    exact ⟨by simp [printValue]; exact ⟨hr.1, hr.2⟩,
      fun hc => absurd ⟨hr.1, hr.2⟩ hc⟩
  · rw [if_neg hr]
    refine ⟨?_, fun _ => rfl⟩
    simp [printValue]
    constructor
    · intro heq
      exact absurd ⟨heq ▸ hlo, heq ▸ hhi⟩ hr
    · intro hq
      exact absurd ⟨hq.1, hq.2⟩ hr

/-- C9: for every recognized configuration variable, starting from any state
whose configuration is in range, `set VAR X; print VAR` prints `X` exactly
when `X` is in the variable's validated range (`nb-turns-max ∈ [1,65535]`,
`nb-players-max ∈ [1,1024]`, `nb-splayers-max, nb-visus-max ∈ [0,1024]`,
`delay-first-turn, delay-turns ∈ [50,10000]`), and an out-of-range `set`
leaves the state — hence the variable's previous value — intact. Integer
values go through `strconv.ParseInt`'s 64-bit bounds (`goParseInt64`); delay
values through a successful `strconv.ParseFloat` (`.ok q`). -/
theorem set_print_roundtrip (gs : ShellGlobalState) (hgs : configInRange gs)
    (x : Int) (q : Rat) (ip : Except String Int) (fp : Except String Rat) :
    (((printValue (executorSet gs "nb-turns-max" (goParseInt64 x) fp).1
        "nb-turns-max" = some (x : Rat)) ↔ (1 ≤ x ∧ x ≤ 65535)) ∧
      (¬ (1 ≤ x ∧ x ≤ 65535) →
        (executorSet gs "nb-turns-max" (goParseInt64 x) fp).1 = gs)) ∧
    (((printValue (executorSet gs "nb-players-max" (goParseInt64 x) fp).1
        "nb-players-max" = some (x : Rat)) ↔ (1 ≤ x ∧ x ≤ 1024)) ∧
      (¬ (1 ≤ x ∧ x ≤ 1024) →
        (executorSet gs "nb-players-max" (goParseInt64 x) fp).1 = gs)) ∧
    (((printValue (executorSet gs "nb-splayers-max" (goParseInt64 x) fp).1
        "nb-splayers-max" = some (x : Rat)) ↔ (0 ≤ x ∧ x ≤ 1024)) ∧
      (¬ (0 ≤ x ∧ x ≤ 1024) →
        (executorSet gs "nb-splayers-max" (goParseInt64 x) fp).1 = gs)) ∧
    (((printValue (executorSet gs "nb-visus-max" (goParseInt64 x) fp).1
        "nb-visus-max" = some (x : Rat)) ↔ (0 ≤ x ∧ x ≤ 1024)) ∧
      (¬ (0 ≤ x ∧ x ≤ 1024) →
        (executorSet gs "nb-visus-max" (goParseInt64 x) fp).1 = gs)) ∧
    (((printValue (executorSet gs "delay-first-turn" ip (.ok q)).1
        "delay-first-turn" = some q) ↔ (50 ≤ q ∧ q ≤ 10000)) ∧
      (¬ (50 ≤ q ∧ q ≤ 10000) →
        (executorSet gs "delay-first-turn" ip (.ok q)).1 = gs)) ∧
    (((printValue (executorSet gs "delay-turns" ip (.ok q)).1
        "delay-turns" = some q) ↔ (50 ≤ q ∧ q ≤ 10000)) ∧
      (¬ (50 ≤ q ∧ q ≤ 10000) →
        (executorSet gs "delay-turns" ip (.ok q)).1 = gs)) :=
  ⟨setPrint_nbTurnsMax gs hgs x fp,
   setPrint_nbPlayersMax gs hgs x fp,
   setPrint_nbSpecialPlayersMax gs hgs x fp,
   setPrint_nbVisusMax gs hgs x fp,
   setPrint_delayFirstTurn gs hgs q ip,
   setPrint_delayTurns gs hgs q ip⟩

/-- A concrete in-range shell configuration. -/
def sampleShellState : ShellGlobalState :=
  { gameState := GAME_NOT_RUNNING, nbTurnsMax := 10, nbPlayersMax := 4,
    nbSpecialPlayersMax := 0, nbVisusMax := 1,
    millisecondsBeforeFirstTurn := 50, millisecondsBetweenTurns := 50 }

/-- C9 witness: on a concrete in-range state, `set nb-turns-max 7` followed
by `print nb-turns-max` prints `7` (7 being in `[1,65535]`). -/
theorem set_print_roundtrip_witness :
    printValue (executorSet sampleShellState "nb-turns-max"
        (goParseInt64 7) (.ok 60)).1 "nb-turns-max" = some ((7 : Int) : Rat) :=
  (set_print_roundtrip sampleShellState
      (by norm_num [configInRange, sampleShellState]) 7 60 (.ok 7)
      (.ok 60)).1.1.mpr (by norm_num)

end Netorcai
